import Mathlib

/-!
Verification development for the offline-resilience core of the SafeStep
family-safety application: the `OfflineManager` action queue and sync engine
(`src/src/utils/offlineManager.ts`), the `GestureManager` shake-counting state
machine (same file), and the `BackgroundService` coordinator
(`src/src/utils/backgroundService.ts`).

The TypeScript classes are shallowly embedded as pure Lean functions over
explicit state records.  JavaScript runtime values stored in `localStorage`
(via `JSON.stringify` and `JSON.parse`) are modelled with the `JValue` type;
JSON numbers are modelled with `Int` (every number appearing in this core is a
timestamp or a counter).  `Date.now()` is passed explicitly as a `now`
parameter.  Asynchronous dispatch to the Firebase client (`syncAction`) is
modelled by an environment function `dispatch : QueuedAction → Bool`; a thrown
rejection and a returned `false` are handled identically by the source's
`for` loop, so both are represented by `dispatch a = false`.
-/

/-- Model of a parsed JSON value (the result of `JSON.parse`).  JavaScript
object property order is preserved; numbers are modelled by `Int`. -/
inductive JValue where
  | jnull : JValue
  | jbool : Bool → JValue
  | jnum : Int → JValue
  | jstr : String → JValue
  | jarr : List JValue → JValue
  | jobj : List (String × JValue) → JValue

/-- JavaScript property access `v[k]` for a parsed JSON value: first matching
key of an object, `undefined` (here `none`) for every other shape. -/
def lookupField : List (String × JValue) → String → Option JValue
  | [], _ => none
  | (k, v) :: rest, key => if k = key then some v else lookupField rest key

def JValue.getProp : JValue → String → Option JValue
  | .jobj fields, key => lookupField fields key
  | _, _ => none

/-- JavaScript truthiness of a parsed JSON value (`undefined` cannot occur in
parsed JSON). -/
def JValue.truthy : JValue → Bool
  | .jnull => false
  | .jbool b => b
  | .jnum n => n != 0
  | .jstr s => s != ""
  | .jarr _ => true
  | .jobj _ => true

/-- The JavaScript test `typeof v === 'string'` for an optional property value. -/
def isJStr : Option JValue → Bool
  | some (.jstr _) => true
  | _ => false

/-- The JavaScript test `typeof v === 'number'` for an optional property value. -/
def isJNum : Option JValue → Bool
  | some (.jnum _) => true
  | _ => false

/-- The JavaScript test `Array.isArray(v)` for an optional property value. -/
def isJArr : Option JValue → Bool
  | some (.jarr _) => true
  | _ => false

/-- A `localStorage` slot as seen by `loadOfflineData`: the key may be absent
(or hold the empty string, which the `if (...)` guard also skips), hold a
string on which `JSON.parse` throws, or hold valid JSON. -/
inductive Blob where
  | absent : Blob
  | malformed : Blob
  | val : JValue → Blob

/-- Record `QueuedAction` from `offlineManager.ts`.  The `type` field is a plain
string at runtime (the TypeScript union is erased), matching the fact that
`loadOfflineData` only validates `typeof item.type === 'string'`.  A missing
`data` property is represented by `jnull`. -/
structure QueuedAction where
  id : String
  type : String
  data : JValue
  timestamp : Int
  retryCount : Int

/-- Record `OfflineData` from `offlineManager.ts`. -/
structure OfflineData where
  locations : List JValue
  messages : List JValue
  sosAlerts : List JValue
  lastSync : Int

/-- The two `localStorage` keys used by `saveOfflineData` / `loadOfflineData`
(`safestep_offline_data` and `safestep_sync_queue`). -/
structure DurableStore where
  offlineBlob : Blob
  queueBlob : Blob

/-- Mutable fields of the `OfflineManager` singleton, together with the
durable store it persists to. -/
structure OfflineManagerSt where
  isOnline : Bool
  syncQueue : List QueuedAction
  offlineData : OfflineData
  syncInProgress : Bool
  store : DurableStore

namespace OfflineManager

def maxRetries : Int := 3

/-- The initial `this.offlineData` value (constructor field initialiser). -/
def defaultOfflineData (now : Int) : OfflineData :=
  { locations := [], messages := [], sosAlerts := [], lastSync := now }

/-- Serialisation of one queued action, as `JSON.stringify` lays out the
object's own enumerable properties in insertion order. -/
def serializeAction (a : QueuedAction) : JValue :=
  .jobj [("id", .jstr a.id), ("type", .jstr a.type), ("data", a.data),
         ("timestamp", .jnum a.timestamp), ("retryCount", .jnum a.retryCount)]

def serializeQueue (q : List QueuedAction) : JValue :=
  .jarr (q.map serializeAction)

def serializeOfflineData (d : OfflineData) : JValue :=
  .jobj [("locations", .jarr d.locations), ("messages", .jarr d.messages),
         ("sosAlerts", .jarr d.sosAlerts), ("lastSync", .jnum d.lastSync)]

/-- Method `saveOfflineData`: writes both `localStorage` keys from the in-memory
state. -/
def saveOfflineData (s : OfflineManagerSt) : OfflineManagerSt :=
  { s with store := { offlineBlob := .val (serializeOfflineData s.offlineData),
                      queueBlob := .val (serializeQueue s.syncQueue) } }

/-- The structural validation `loadOfflineData` applies to the parsed
offline-data blob: `parsed && typeof parsed === 'object'` plus
`Array.isArray` on the three category lists and `typeof parsed.lastSync ===
'number'`. -/
def parseOfflineData (j : JValue) : Option OfflineData :=
  if j.truthy && (match j with | .jobj _ => true | .jarr _ => true | _ => false) then
    match j.getProp "locations", j.getProp "messages",
          j.getProp "sosAlerts", j.getProp "lastSync" with
    | some (.jarr ls), some (.jarr ms), some (.jarr ss), some (.jnum n) =>
        some { locations := ls, messages := ms, sosAlerts := ss, lastSync := n }
    | _, _, _, _ => none
  else none

/-- The per-item validation in `loadOfflineData`'s queue filter:
`item && typeof item.id === 'string' && typeof item.type === 'string' &&
typeof item.timestamp === 'number' && typeof item.retryCount === 'number'`. -/
def validQueueItem (j : JValue) : Bool :=
  j.truthy && isJStr (j.getProp "id") && isJStr (j.getProp "type")
    && isJNum (j.getProp "timestamp") && isJNum (j.getProp "retryCount")

/-- Projection of a validated queue item back onto the `QueuedAction` record;
items failing the filter are dropped (`none`). -/
def parseQueueItem (j : JValue) : Option QueuedAction :=
  if j.truthy then
    match j.getProp "id", j.getProp "type",
          j.getProp "timestamp", j.getProp "retryCount" with
    | some (.jstr i), some (.jstr t), some (.jnum ts), some (.jnum rc) =>
        some { id := i, type := t, data := (j.getProp "data").getD .jnull,
               timestamp := ts, retryCount := rc }
    | _, _, _, _ => none
  else none

/-- The offline-data assignment of `loadOfflineData`'s `try` block: absent key
leaves the constructor default; an ill-shaped parsed value calls
`resetOfflineData` inline (defaults) and the block continues. -/
def dataOf (now : Int) : Blob → OfflineData
  | .val j => (parseOfflineData j).getD (defaultOfflineData now)
  | _ => defaultOfflineData now

/-- The queue assignment of `loadOfflineData`'s `try` block: absent key leaves
the constructor default `[]`; a parsed non-array resets to `[]`; a parsed
array is filtered item by item. -/
def queueOf : Blob → List QueuedAction
  | .val (.jarr items) => items.filterMap parseQueueItem
  | _ => []

/-- The body of `loadOfflineData`'s `try` block, run in the constructor
context (fields hold their initialisers).  `Blob.malformed` makes
`JSON.parse` throw, aborting the block (either parse throwing yields the same
caught error). -/
def loadAttempt (now : Int) (ob qb : Blob) :
    Except Unit (OfflineData × List QueuedAction) :=
  match ob, qb with
  | .malformed, _ => .error ()
  | _, .malformed => .error ()
  | ob, qb => .ok (dataOf now ob, queueOf qb)

/-- Method `loadOfflineData`: the `catch` clause calls `resetOfflineData`, leaving
empty defaults.  Total for every durable-store contents. -/
def loadOfflineData (now : Int) (ob qb : Blob) :
    OfflineData × List QueuedAction :=
  match loadAttempt now ob qb with
  | .ok r => r
  | .error _ => (defaultOfflineData now, [])

/-- Method `queueAction`: builds the action (`retryCount = 0`), appends it and
persists synchronously via `saveOfflineData` before returning the id.  The
source's follow-up `if (this.isOnline) this.syncWhenOnline()` is an
asynchronous fire-and-forget drain that runs only after `queueAction` has
returned; it is modelled as a separate later `syncWhenOnline` step.
`now` models `Date.now()`, `rand` the `Math.random().toString(36).substr(2,9)`
suffix. -/
def queueAction (typ : String) (d : JValue) (now : Int) (rand : String)
    (s : OfflineManagerSt) : OfflineManagerSt × String :=
  let a : QueuedAction :=
    { id := typ ++ "_" ++ toString now ++ "_" ++ rand, type := typ,
      data := d, timestamp := now, retryCount := 0 }
  (saveOfflineData { s with syncQueue := s.syncQueue ++ [a] }, a.id)

/-- The three list-valued categories of `OfflineData` (the source's fourth
key, `'lastSync'`, takes the scalar branch of `storeOfflineData` and is not a
capped list). -/
inductive OfflineListKey where
  | locations | messages | sosAlerts

def categoryList (k : OfflineListKey) (d : OfflineData) : List JValue :=
  match k with
  | .locations => d.locations
  | .messages => d.messages
  | .sosAlerts => d.sosAlerts

def setCategoryList (k : OfflineListKey) (l : List JValue) (d : OfflineData) :
    OfflineData :=
  match k with
  | .locations => { d with locations := l }
  | .messages => { d with messages := l }
  | .sosAlerts => { d with sosAlerts := l }

/-- The decorated element pushed by `storeOfflineData`:
`{ ...data, _offline: true, _timestamp: Date.now() }`.  Spreading a
non-object contributes no properties; the two metadata keys win over any
same-named key of `data`. -/
def withOfflineMeta (d : JValue) (now : Int) : JValue :=
  let own := match d with
    | .jobj fields => fields.filter (fun p => p.1 != "_offline" && p.1 != "_timestamp")
    | _ => []
  .jobj (own ++ [("_offline", .jbool true), ("_timestamp", .jnum now)])

/-- Method `storeOfflineData` on a list category: push the decorated item, then
`if (length > 100) splice(0, 50)` — dropping the 50 oldest entries — then
persist. -/
def storeOfflineData (k : OfflineListKey) (d : JValue) (now : Int)
    (s : OfflineManagerSt) : OfflineManagerSt :=
  let l := categoryList k s.offlineData ++ [withOfflineMeta d now]
  let l := if l.length > 100 then l.drop 50 else l
  saveOfflineData { s with offlineData := setCategoryList k l s.offlineData }

/-- One iteration of the drain loop for one snapshot action: on dispatch
success the id is marked for removal; on failure `retryCount` is incremented
in place (the snapshot is a shallow copy, so the mutation is visible through
`this.syncQueue` as well) and the id is marked for removal once
`retryCount >= maxRetries`.  The `catch` arm of the source performs the same
increment-and-check, so a rejected dispatch is also `dispatch a = false`. -/
def processAction (dispatch : QueuedAction → Bool) (a : QueuedAction) :
    QueuedAction × Bool :=
  if dispatch a then (a, true)
  else
    let a1 := { a with retryCount := a.retryCount + 1 }
    (a1, decide (a1.retryCount ≥ maxRetries))

/-- The drain loop over the snapshot `actionsToSync`, in order; returns the
actions with their in-place `retryCount` updates and the accumulated
`successfulSyncs` id list. -/
def processSnapshot (dispatch : QueuedAction → Bool) :
    List QueuedAction → List QueuedAction × List String
  | [] => ([], [])
  | a :: rest =>
    let (a1, marked) := processAction dispatch a
    let (rest1, ids) := processSnapshot dispatch rest
    (a1 :: rest1, if marked then a1.id :: ids else ids)

/-- Method `syncWhenOnline` (the drain).  Guard: offline, drain already in flight, or
empty queue → return immediately.  Otherwise it snapshots the queue
(`[...this.syncQueue]`), processes every snapshot action once, and filters
`this.syncQueue` — which at that point consists of the (mutated) snapshot
objects plus any actions enqueued at the loop's await points, passed here as
`mid` — by the `successfulSyncs` ids, updates `lastSync`, persists, and
clears `syncInProgress`.  The second component is the list of actions on
which a dispatch was attempted, in iteration order. -/
def syncWhenOnline (dispatch : QueuedAction → Bool) (mid : List QueuedAction)
    (now : Int) (s : OfflineManagerSt) :
    OfflineManagerSt × List QueuedAction :=
  if !s.isOnline || s.syncInProgress || s.syncQueue.isEmpty then (s, [])
  else
    let snapshot := s.syncQueue
    let (updated, removedIds) := processSnapshot dispatch snapshot
    let newQueue := (updated ++ mid).filter (fun a => !(removedIds.contains a.id))
    let s1 := { s with syncQueue := newQueue,
                       offlineData := { s.offlineData with lastSync := now },
                       syncInProgress := false }
    (saveOfflineData s1, snapshot)

/-- Record `SyncStatus`, the projection returned by `getSyncStatus`. -/
structure SyncStatus where
  isOnline : Bool
  queuedActions : Nat
  lastSync : Int
  syncInProgress : Bool

def getSyncStatus (s : OfflineManagerSt) : SyncStatus :=
  { isOnline := s.isOnline, queuedActions := s.syncQueue.length,
    lastSync := s.offlineData.lastSync, syncInProgress := s.syncInProgress }

/-- The `window 'online'` listener in `setupEventListeners`: sets
`isOnline := true`, notifies subscribers (no core state change), and calls
`syncWhenOnline`. -/
def handleOnlineEvent (dispatch : QueuedAction → Bool) (now : Int)
    (s : OfflineManagerSt) : OfflineManagerSt :=
  (syncWhenOnline dispatch [] now { s with isOnline := true }).1

end OfflineManager

/-- Mutable shake-detection fields of the `GestureManager` singleton.
`shakeResetAt` models the pending `shakeResetTimeout`: `some t` means a
timer is scheduled to zero `shakeCount` at time `t`. -/
structure GestureSt where
  lastAcceleration : Int × Int × Int
  shakeCount : Nat
  lastShakeTime : Int
  shakeResetAt : Option Int

namespace GestureManager

def shakeThreshold : Nat := 15
def shakeWindow : Int := 3000

def initialGestureSt : GestureSt :=
  { lastAcceleration := (0, 0, 0), shakeCount := 0, lastShakeTime := 0,
    shakeResetAt := none }

/-- Handler `handleDeviceMotion` for one `devicemotion` sample delivered at time `t`
with `accelerationIncludingGravity` components `(ax, ay, az)`.  The second
component is the list of `onShake(shakeCount)` emissions (count `3` is the
"panic" emission, counts `≥ 4` the "SOS" emission).  Faithful details: an
all-zero reading is skipped; a counted shake clears and re-arms the
3000 ms reset timer; the `shakeCount >= 4` branch emits, calls
`resetShakeCount` and returns early, skipping both the timer re-arm and the
trailing `lastAcceleration` update; `lastShakeTime` is never cleared. -/
def handleDeviceMotion (t ax ay az : Int) (s : GestureSt) :
    GestureSt × List Nat :=
  if ax == 0 && ay == 0 && az == 0 then (s, [])
  else
    let (lx, ly, lz) := s.lastAcceleration
    let totalDelta := (ax - lx).natAbs + (ay - ly).natAbs + (az - lz).natAbs
    if totalDelta > shakeThreshold then
      if t - s.lastShakeTime > 500 then
        let c := s.shakeCount + 1
        if c ≥ 4 then
          ({ s with shakeCount := 0, lastShakeTime := t, shakeResetAt := none },
           [c])
        else
          ({ s with shakeCount := c, lastShakeTime := t,
                    shakeResetAt := some (t + shakeWindow),
                    lastAcceleration := (ax, ay, az) },
           if c = 3 then [c] else [])
      else ({ s with lastAcceleration := (ax, ay, az) }, [])
    else ({ s with lastAcceleration := (ax, ay, az) }, [])

/-- The scheduled `shakeResetTimeout` callback (`resetShakeCount`) firing on
the event loop: it runs before any motion sample delivered at or after its
due time. -/
def fireDueTimeout (t : Int) (s : GestureSt) : GestureSt :=
  match s.shakeResetAt with
  | some due => if due ≤ t then { s with shakeCount := 0, shakeResetAt := none }
                else s
  | none => s

/-- Run a time-ordered list of motion samples `(t, ax, ay, az)` through the
event loop, firing any due reset timer before each sample; collects all
`onShake` emissions in order. -/
def runMotion : List (Int × Int × Int × Int) → GestureSt →
    GestureSt × List Nat
  | [], s => (s, [])
  | (t, ax, ay, az) :: rest, s =>
    let s1 := fireDueTimeout t s
    let (s2, es) := handleDeviceMotion t ax ay az s1
    let (s3, es2) := runMotion rest s2
    (s3, es ++ es2)

end GestureManager

/-- Mutable fields of the `BackgroundService` singleton.  The handles are
opaque (`Nat` ids for the watch, `Unit` tokens for the rest). -/
structure BgSt where
  isRunning : Bool
  locationWatchId : Option Nat
  heartbeatInterval : Option Nat
  wakeLock : Option Unit
  serviceWorker : Option Unit

namespace BackgroundService

/-- Environment for `start`: which platform capabilities exist and whether
their acquisition calls fail.  `acquireWakeLock` and
`registerServiceWorker` contain their own `try`/`catch`, so their failures
never propagate. -/
structure StartEnv where
  wakeLockSupported : Bool
  wakeLockRequestFails : Bool
  serviceWorkerSupported : Bool
  serviceWorkerRegisterFails : Bool
  geolocationSupported : Bool
  watchId : Nat

/-- Method `acquireWakeLock`: best effort, logs and continues when the API is absent
or the request rejects. -/
def acquireWakeLock (env : StartEnv) (s : BgSt) : BgSt :=
  if env.wakeLockSupported && !env.wakeLockRequestFails then
    { s with wakeLock := some () }
  else s

/-- Method `registerServiceWorker`: best effort, failures are caught internally. -/
def registerServiceWorker (env : StartEnv) (s : BgSt) : BgSt :=
  if env.serviceWorkerSupported && !env.serviceWorkerRegisterFails then
    { s with serviceWorker := some () }
  else s

/-- Method `start(childCode?)`.  Already running → returns `true` unchanged.
Otherwise runs the setup sequence inside one `try`: the only throwing step is
`startLocationTracking` (which throws when geolocation is unsupported and is
reached only when a `childCode` is given); the `catch` returns `false` with
`isRunning` still `false`.  The boolean result is returned, never an
exception. -/
def start (env : StartEnv) (childCode : Option String) (s : BgSt) :
    Bool × BgSt :=
  if s.isRunning then (true, s)
  else
    let s1 := acquireWakeLock env s
    let s2 := registerServiceWorker env s1
    match childCode with
    | some _ =>
      if env.geolocationSupported then
        let s3 := { s2 with locationWatchId := some env.watchId }
        let s4 := { s3 with heartbeatInterval := some 0 }
        (true, { s4 with isRunning := true })
      else (false, s2)
    | none =>
      let s4 := { s2 with heartbeatInterval := some 0 }
      (true, { s4 with isRunning := true })

/-- Environment for `stop`: whether each external release call throws. -/
structure StopEnv where
  clearWatchFails : Bool
  clearIntervalFails : Bool
  releaseWakeLockFails : Bool
  postMessageFails : Bool

/-- The body of `stop`'s single `try` block, step by step; returns the state
reached and whether the block threw.  A throw at any step abandons the
remaining steps, including the final `isRunning = false` assignment. -/
def stopAttempt (env : StopEnv) (s : BgSt) : BgSt × Bool :=
  match s.locationWatchId with
  | some _ =>
    if env.clearWatchFails then (s, true)
    else stopAfterWatch env { s with locationWatchId := none }
  | none => stopAfterWatch env s
where
  stopAfterWatch (env : StopEnv) (s : BgSt) : BgSt × Bool :=
    match s.heartbeatInterval with
    | some _ =>
      if env.clearIntervalFails then (s, true)
      else stopAfterHeartbeat env { s with heartbeatInterval := none }
    | none => stopAfterHeartbeat env s
  stopAfterHeartbeat (env : StopEnv) (s : BgSt) : BgSt × Bool :=
    match s.wakeLock with
    | some _ =>
      if env.releaseWakeLockFails then (s, true)
      else stopAfterWakeLock env { s with wakeLock := none }
    | none => stopAfterWakeLock env s
  stopAfterWakeLock (env : StopEnv) (s : BgSt) : BgSt × Bool :=
    match s.serviceWorker with
    | some _ =>
      if env.postMessageFails then (s, true)
      else ({ s with isRunning := false }, false)
    | none => ({ s with isRunning := false }, false)

/-- Method `stop()`: no-op when not running; otherwise runs the release sequence and
swallows any exception (`catch` only logs), so nothing ever propagates to the
caller. -/
def stop (env : StopEnv) (s : BgSt) : BgSt :=
  if !s.isRunning then s
  else (stopAttempt env s).1

end BackgroundService

/-! ### Concrete fixtures used by the test-scenario theorems below. -/

/-- The `OfflineManager` state right after construction against an empty
durable store (`navigator.onLine` supplied as `onLine`, `Date.now()` as
`now`). -/
def OfflineManager.initialState (onLine : Bool) (now : Int) : OfflineManagerSt :=
  { isOnline := onLine, syncQueue := [],
    offlineData := OfflineManager.defaultOfflineData now,
    syncInProgress := false,
    store := { offlineBlob := .absent, queueBlob := .absent } }

def c1Action : QueuedAction :=
  { id := "sos_0_aaaaaaaaa", type := "sos", data := .jnull,
    timestamp := 0, retryCount := 0 }

def c1St : OfflineManagerSt :=
  { OfflineManager.initialState true 0 with syncQueue := [c1Action] }

def c2ActionA : QueuedAction :=
  { id := "message_0_bbbbbbbbb", type := "message", data := .jnull,
    timestamp := 0, retryCount := 0 }

def c2ActionMid : QueuedAction :=
  { id := "location_5_ccccccccc", type := "location", data := .jnull,
    timestamp := 5, retryCount := 0 }

def c2St : OfflineManagerSt :=
  { OfflineManager.initialState true 0 with syncQueue := [c2ActionA] }

/-- The state after `n` successive `storeOfflineData('locations', i)` calls
(payloads `0, 1, …`) starting from an empty cache. -/
def c4Insert (n : Nat) : OfflineManagerSt :=
  (List.range n).foldl
    (fun s i => OfflineManager.storeOfflineData .locations (.jnum i) 0 s)
    (OfflineManager.initialState true 0)

def c5ActionA : QueuedAction :=
  { id := "message_0_ddddddddd", type := "message", data := .jnull,
    timestamp := 0, retryCount := 0 }

def c5ActionB : QueuedAction :=
  { id := "location_1_eeeeeeeee", type := "location", data := .jnull,
    timestamp := 1, retryCount := 0 }

def c5ActionC : QueuedAction :=
  { id := "status_2_fffffffff", type := "status", data := .jnull,
    timestamp := 2, retryCount := 0 }

def c5St : OfflineManagerSt :=
  { OfflineManager.initialState true 0 with
      syncQueue := [c5ActionA, c5ActionB, c5ActionC] }

/-- The claim's shake scenario at sample offsets 0, 600, 1200, 1800, 2200,
2300 ms from the clock instant `t0` at which the scenario starts: the sample
times are `Date.now()` readings, so `t0` is epoch-scale (any real clock has
`t0 > 500`, which is what makes the first sample clear the
`currentTime - lastShakeTime > 500` debounce against the `lastShakeTime = 0`
field initialiser).  Every sample's acceleration delta (20) is above the
threshold (15); the x-components are chosen so the delta stays above
threshold even after the SOS branch skips its `lastAcceleration` update. -/
def c3Trace (t0 : Int) : List (Int × Int × Int × Int) :=
  [(t0, 20, 0, 0), (t0 + 600, 40, 0, 0), (t0 + 1200, 20, 0, 0),
   (t0 + 1800, 40, 0, 0), (t0 + 2200, 40, 0, 0), (t0 + 2300, 20, 0, 0)]

/-- A concrete realistic clock instant (an epoch-milliseconds value) for the
closed counterexample run. -/
def c3Start : Int := 1750000000000

/-- A running background service holding all four resources. -/
def c6RunningSt : BgSt :=
  { isRunning := true, locationWatchId := some 7, heartbeatInterval := some 8,
    wakeLock := some (), serviceWorker := some () }

/-- Release environment in which the first release step (clearing the
location watch) throws. -/
def c6WatchFailEnv : BackgroundService.StopEnv :=
  { clearWatchFails := true, clearIntervalFails := false,
    releaseWakeLockFails := false, postMessageFails := false }

/-- Release environment in which every release step succeeds. -/
def c6CleanEnv : BackgroundService.StopEnv :=
  { clearWatchFails := false, clearIntervalFails := false,
    releaseWakeLockFails := false, postMessageFails := false }

/-- Start environment with no wake-lock capability but working geolocation
(degraded mode). -/
def c8DegradedEnv : BackgroundService.StartEnv :=
  { wakeLockSupported := false, wakeLockRequestFails := false,
    serviceWorkerSupported := true, serviceWorkerRegisterFails := false,
    geolocationSupported := true, watchId := 7 }

/-- Start environment without geolocation support: `startLocationTracking`
throws. -/
def c8NoGeoEnv : BackgroundService.StartEnv :=
  { wakeLockSupported := true, wakeLockRequestFails := false,
    serviceWorkerSupported := true, serviceWorkerRegisterFails := false,
    geolocationSupported := false, watchId := 7 }

def c8StoppedSt : BgSt :=
  { isRunning := false, locationWatchId := none, heartbeatInterval := none,
    wakeLock := none, serviceWorker := none }

def c9St : OfflineManagerSt :=
  { OfflineManager.initialState false 0 with
      syncQueue := [c5ActionA, c5ActionB, c5ActionC] }

/-- A queue blob holding one item that passes the load-time validation and
two that fail it (a bare number, and an object whose `retryCount` is a
string). -/
def c10Items : List JValue :=
  [OfflineManager.serializeAction c2ActionA,
   .jnum 5,
   .jobj [("id", .jstr "x"), ("type", .jstr "sos"),
          ("timestamp", .jnum 1), ("retryCount", .jstr "0")]]

/-! ### Helper lemmas about the drain machinery. -/

namespace OfflineManager

theorem processAction_id (dispatch : QueuedAction → Bool) (a : QueuedAction) :
    ((processAction dispatch a).1).id = a.id := by
  unfold processAction
  split <;> rfl

theorem processAction_true (a : QueuedAction) :
    processAction (fun _ => true) a = (a, true) := rfl

theorem processSnapshot_true (l : List QueuedAction) :
    processSnapshot (fun _ => true) l = (l, l.map QueuedAction.id) := by
  induction l with
  | nil => rfl
  | cons a rest ih => simp [processSnapshot, processAction_true, ih]

theorem processSnapshot_snd_subset (dispatch : QueuedAction → Bool)
    (l : List QueuedAction) :
    ∀ x ∈ (processSnapshot dispatch l).2, x ∈ l.map QueuedAction.id := by
  induction l with
  | nil => intro x hx; simp [processSnapshot] at hx
  | cons a rest ih =>
    intro x hx
    simp only [processSnapshot] at hx
    rcases hm : (processAction dispatch a).2 with _ | _
    · rw [hm] at hx
      simp at hx
      simp [ih x hx]
    · rw [hm] at hx
      simp at hx
      rcases hx with hx | hx
      · simp [hx, processAction_id]
      · simp [ih x hx]

theorem filter_not_contains_self (l : List QueuedAction) :
    l.filter (fun a => !((l.map QueuedAction.id).contains a.id)) = [] := by
  rw [List.filter_eq_nil_iff]
  intro a ha
  simp
  exact ⟨a, ha, rfl⟩

theorem saveOfflineData_syncQueue (s : OfflineManagerSt) :
    (saveOfflineData s).syncQueue = s.syncQueue := rfl

theorem saveOfflineData_isOnline (s : OfflineManagerSt) :
    (saveOfflineData s).isOnline = s.isOnline := rfl

/-- Unfolding of the drain when the guard passes. -/
theorem syncWhenOnline_run (dispatch : QueuedAction → Bool)
    (mid : List QueuedAction) (now : Int) (s : OfflineManagerSt)
    (hON : s.isOnline = true) (hP : s.syncInProgress = false)
    (hNE : s.syncQueue ≠ []) :
    syncWhenOnline dispatch mid now s =
      (saveOfflineData
        { s with
            syncQueue :=
              ((processSnapshot dispatch s.syncQueue).1 ++ mid).filter
                (fun a => !((processSnapshot dispatch s.syncQueue).2.contains a.id)),
            offlineData := { s.offlineData with lastSync := now },
            syncInProgress := false },
       s.syncQueue) := by
  unfold syncWhenOnline
  simp [hON, hP, hNE]

/-- A drain against an always-succeeding dispatcher attempts exactly the
snapshot (FIFO) and empties the queue. -/
theorem syncWhenOnline_true (now : Int) (s : OfflineManagerSt)
    (hON : s.isOnline = true) (hP : s.syncInProgress = false) :
    (syncWhenOnline (fun _ => true) [] now s).2 = s.syncQueue ∧
    (syncWhenOnline (fun _ => true) [] now s).1.syncQueue = [] ∧
    (syncWhenOnline (fun _ => true) [] now s).1.isOnline = true := by
  by_cases hq : s.syncQueue = []
  · unfold syncWhenOnline
    simp [hON, hP, hq]
  · rw [syncWhenOnline_run (fun _ => true) [] now s hON hP hq]
    refine ⟨rfl, ?_, by rw [saveOfflineData_isOnline]; exact hON⟩
    rw [saveOfflineData_syncQueue]
    simp only [processSnapshot_true, List.append_nil]
    exact filter_not_contains_self s.syncQueue

end OfflineManager

namespace OfflineManager

/-- One failing drain on a single-action queue below the retry ceiling:
the action stays, its `retryCount` incremented in place. -/
theorem drain_fail_step (now : Int) (a : QueuedAction) (s : OfflineManagerSt)
    (hON : s.isOnline = true) (hP : s.syncInProgress = false)
    (hQ : s.syncQueue = [a]) (hrc : ¬ a.retryCount + 1 ≥ maxRetries) :
    (syncWhenOnline (fun _ => false) [] now s).1.syncQueue =
      [{ a with retryCount := a.retryCount + 1 }] ∧
    (syncWhenOnline (fun _ => false) [] now s).1.isOnline = true ∧
    (syncWhenOnline (fun _ => false) [] now s).1.syncInProgress = false := by
  rw [syncWhenOnline_run (fun _ => false) [] now s hON hP (by rw [hQ]; simp)]
  refine ⟨?_, by rw [saveOfflineData_isOnline]; exact hON, rfl⟩
  rw [saveOfflineData_syncQueue]
  simp [hQ, processSnapshot, processAction, hrc]

/-- The failing drain that reaches the retry ceiling removes the action. -/
theorem drain_fail_last (now : Int) (a : QueuedAction) (s : OfflineManagerSt)
    (hON : s.isOnline = true) (hP : s.syncInProgress = false)
    (hQ : s.syncQueue = [a]) (hrc : a.retryCount + 1 ≥ maxRetries) :
    (syncWhenOnline (fun _ => false) [] now s).1.syncQueue = [] := by
  rw [syncWhenOnline_run (fun _ => false) [] now s hON hP (by rw [hQ]; simp)]
  rw [saveOfflineData_syncQueue]
  simp [hQ, processSnapshot, processAction, hrc]

/-- Deserialising a serialised action restores it exactly (round trip). -/
theorem parseQueueItem_serializeAction (a : QueuedAction) :
    parseQueueItem (serializeAction a) = some a := by
  obtain ⟨i, t, d, ts, rc⟩ := a
  rfl

theorem loadQueue_roundtrip (q : List QueuedAction) :
    (q.map serializeAction).filterMap parseQueueItem = q := by
  induction q with
  | nil => rfl
  | cons a rest ih =>
    simp [List.filterMap_cons, parseQueueItem_serializeAction, ih]

theorem parseOfflineData_serialize (d : OfflineData) :
    parseOfflineData (serializeOfflineData d) = some d := by
  obtain ⟨ls, ms, ss, n⟩ := d
  rfl

theorem isJStr_iff (o : Option JValue) :
    isJStr o = true ↔ ∃ s, o = some (.jstr s) := by
  cases o with
  | none => simp [isJStr]
  | some v => cases v <;> simp [isJStr]

theorem isJNum_iff (o : Option JValue) :
    isJNum o = true ↔ ∃ n, o = some (.jnum n) := by
  cases o with
  | none => simp [isJNum]
  | some v => cases v <;> simp [isJNum]

/-- Every item passing the source's validation filter is loaded. -/
theorem valid_item_parses (x : JValue) (h : validQueueItem x = true) :
    (parseQueueItem x).isSome = true := by
  unfold validQueueItem at h
  simp only [Bool.and_eq_true] at h
  obtain ⟨⟨⟨⟨htr, hid⟩, hty⟩, hts⟩, hrc⟩ := h
  obtain ⟨i, hi⟩ := (isJStr_iff _).mp hid
  obtain ⟨t, ht⟩ := (isJStr_iff _).mp hty
  obtain ⟨ts, hts2⟩ := (isJNum_iff _).mp hts
  obtain ⟨rc, hrc2⟩ := (isJNum_iff _).mp hrc
  unfold parseQueueItem
  rw [htr, hi, ht, hts2, hrc2]
  simp

/-- Every loaded item passes the source's validation filter. -/
theorem parsed_item_valid (x : JValue) (a : QueuedAction)
    (h : parseQueueItem x = some a) : validQueueItem x = true := by
  unfold parseQueueItem at h
  by_cases htr : x.truthy
  · rw [if_pos htr] at h
    split at h
    · next i t ts rc hi ht hts hrc =>
        unfold validQueueItem
        rw [htr, hi, ht, hts, hrc]
        rfl
    · exact absurd h (by simp)
  · rw [if_neg htr] at h
    exact absurd h (by simp)

end OfflineManager

/-! ### Claim theorems. -/

/-- Claim C1: a queued action whose dispatch always fails is removed from the
queue after exactly `maxRetries = 3` failed dispatch attempts — never fewer,
never more — each failure incrementing `retryCount` in place: after one and
two failing drains the action is still queued with `retryCount` 1 resp. 2,
and the third failing drain removes it. -/
theorem c1_retry_budget_termination (a : QueuedAction) (s : OfflineManagerSt)
    (now1 now2 now3 : Int)
    (hON : s.isOnline = true) (hP : s.syncInProgress = false)
    (hQ : s.syncQueue = [a]) (hR : a.retryCount = 0) :
    (OfflineManager.syncWhenOnline (fun _ => false) [] now1 s).1.syncQueue =
      [{ a with retryCount := 1 }] ∧
    (OfflineManager.syncWhenOnline (fun _ => false) [] now2
        (OfflineManager.syncWhenOnline (fun _ => false) [] now1 s).1).1.syncQueue =
      [{ a with retryCount := 2 }] ∧
    (OfflineManager.syncWhenOnline (fun _ => false) [] now3
        (OfflineManager.syncWhenOnline (fun _ => false) [] now2
          (OfflineManager.syncWhenOnline (fun _ => false) [] now1 s).1).1).1.syncQueue =
      [] := by
  have h1 := OfflineManager.drain_fail_step now1 a s hON hP hQ
    (by rw [hR]; norm_num [OfflineManager.maxRetries])
  obtain ⟨h1q, h1on, h1p⟩ := h1
  rw [hR] at h1q
  have h2 := OfflineManager.drain_fail_step now2 { a with retryCount := 0 + 1 } _
    h1on h1p h1q (by norm_num [OfflineManager.maxRetries])
  obtain ⟨h2q, h2on, h2p⟩ := h2
  have h3 := OfflineManager.drain_fail_last now3 _ _
    h2on h2p h2q (by norm_num [OfflineManager.maxRetries])
  exact ⟨h1q, h2q, h3⟩

theorem c1_retry_budget_termination_witness :
    c1St.isOnline = true ∧ c1St.syncInProgress = false ∧
    c1St.syncQueue = [c1Action] ∧ c1Action.retryCount = 0 ∧
    ((OfflineManager.syncWhenOnline (fun _ => false) [] 10 c1St).1.syncQueue =
        [{ c1Action with retryCount := 1 }] ∧
     (OfflineManager.syncWhenOnline (fun _ => false) [] 20
        (OfflineManager.syncWhenOnline (fun _ => false) [] 10 c1St).1).1.syncQueue =
        [{ c1Action with retryCount := 2 }] ∧
     (OfflineManager.syncWhenOnline (fun _ => false) [] 30
        (OfflineManager.syncWhenOnline (fun _ => false) [] 20
          (OfflineManager.syncWhenOnline (fun _ => false) [] 10 c1St).1).1).1.syncQueue =
        []) :=
  ⟨rfl, rfl, rfl, rfl,
   c1_retry_budget_termination c1Action c1St 10 20 30 rfl rfl rfl rfl⟩

/-- Claim C3 counterexample: running the claim's sample trace (above-threshold
deltas at offsets 0, 600, 1200, 1800, 2200, 2300 ms) at a realistic clock
instant, the SOS emission (`onShake 4`) has already happened within the first
four samples — it fires at the 4th sample (offset 1800), which is the 4th
counted shake — so the offset-2200 sample triggers nothing (it is only 400 ms
after the SOS shake, rejected by the 500 ms debounce), and the offset-2300
sample (claimed to "start a fresh count at 1") is likewise debounced (500 is
not > 500, and `resetShakeCount` does not clear `lastShakeTime`), leaving
`shakeCount = 0`, not 1. -/
theorem c3_shake_scenario_counterexample :
    (GestureManager.runMotion ((c3Trace c3Start).take 4)
        GestureManager.initialGestureSt).2 = [3, 4] ∧
    (GestureManager.runMotion (c3Trace c3Start)
        GestureManager.initialGestureSt).2 = [3, 4] ∧
    (GestureManager.runMotion (c3Trace c3Start)
        GestureManager.initialGestureSt).1.shakeCount = 0 := by
  exact ⟨rfl, rfl, rfl⟩

/-- Claim C3 amended, for every clock instant `t0 > 500` (true of any real
`Date.now()`): the four qualifying samples at offsets 0, 600, 1200, 1800 are
all counted, the panic event (`onShake 3`) fires exactly once at the 3rd
counted shake (offset 1200), and the 4th counted shake — the offset-1800
sample, within the 3000 ms window — fires the SOS event (`onShake 4`) exactly
once, without firing panic again, and resets `shakeCount` to 0.  The
offset-2200 and offset-2300 samples, both within 500 ms of the SOS shake, are
rejected by the debounce (`lastShakeTime` survives `resetShakeCount`), so the
run ends with `shakeCount = 0` — a sample 100 ms after the SOS does not start
a fresh count at 1; the fresh count of 1 starts only with a sample more than
500 ms after the SOS shake, such as offset 2400. -/
theorem c3_shake_scenario_amended (t0 : Int) (ht0 : 500 < t0) :
    (GestureManager.runMotion ((c3Trace t0).take 3)
        GestureManager.initialGestureSt).2 = [3] ∧
    (GestureManager.runMotion ((c3Trace t0).take 4)
        GestureManager.initialGestureSt).2 = [3, 4] ∧
    (GestureManager.runMotion (c3Trace t0)
        GestureManager.initialGestureSt).2 = [3, 4] ∧
    (GestureManager.runMotion (c3Trace t0)
        GestureManager.initialGestureSt).1.shakeCount = 0 ∧
    (GestureManager.runMotion (c3Trace t0 ++ [(t0 + 2400, 40, 0, 0)])
        GestureManager.initialGestureSt).1.shakeCount = 1 := by
  simp [c3Trace, GestureManager.runMotion, GestureManager.handleDeviceMotion,
        GestureManager.fireDueTimeout, GestureManager.initialGestureSt,
        GestureManager.shakeThreshold, GestureManager.shakeWindow, ht0,
        add_assoc]

theorem c3_shake_scenario_amended_witness :
    (500 : Int) < 1700000000000 ∧
    ((GestureManager.runMotion ((c3Trace 1700000000000).take 3)
        GestureManager.initialGestureSt).2 = [3] ∧
     (GestureManager.runMotion ((c3Trace 1700000000000).take 4)
        GestureManager.initialGestureSt).2 = [3, 4] ∧
     (GestureManager.runMotion (c3Trace 1700000000000)
        GestureManager.initialGestureSt).2 = [3, 4] ∧
     (GestureManager.runMotion (c3Trace 1700000000000)
        GestureManager.initialGestureSt).1.shakeCount = 0 ∧
     (GestureManager.runMotion
        (c3Trace 1700000000000 ++ [(1700000000000 + 2400, 40, 0, 0)])
        GestureManager.initialGestureSt).1.shakeCount = 1) :=
  ⟨by decide, c3_shake_scenario_amended 1700000000000 (by decide)⟩

set_option maxRecDepth 40000 in
/-- Claim C4 counterexample: an insertion at capacity does not evict just the
oldest entry.  Inserting the 101st item into a full (100-entry) locations
cache leaves 51 entries — the `splice(0, 50)` batch-evicts the 50 oldest —
with the oldest surviving entry the one inserted 51st (payload 50), not the
2nd. -/
theorem c4_eviction_counterexample :
    (c4Insert 100).offlineData.locations.length = 100 ∧
    (c4Insert 101).offlineData.locations.length = 51 ∧
    (c4Insert 101).offlineData.locations.head? =
      some (OfflineManager.withOfflineMeta (.jnum 50) 0) := by
  exact ⟨rfl, rfl, rfl⟩

/-- The category list written by `storeOfflineData`, before persisting. -/
theorem storeOfflineData_category (k : OfflineManager.OfflineListKey)
    (d : JValue) (now : Int) (s : OfflineManagerSt) :
    OfflineManager.categoryList k
        (OfflineManager.storeOfflineData k d now s).offlineData =
      if (OfflineManager.categoryList k s.offlineData ++
            [OfflineManager.withOfflineMeta d now]).length > 100
      then (OfflineManager.categoryList k s.offlineData ++
            [OfflineManager.withOfflineMeta d now]).drop 50
      else OfflineManager.categoryList k s.offlineData ++
            [OfflineManager.withOfflineMeta d now] := by
  cases k <;> rfl

set_option maxRecDepth 40000 in
/-- Claim C4 amended: every category list stays capped at 100 entries after
each `storeOfflineData` call, but the eviction is a batch: an insertion that
pushes the length past 100 evicts the 50 oldest entries at once
(`splice(0, 50)`), leaving 51.  The claim's end-to-end consequence still
holds: inserting 150 items into an empty category leaves exactly the 100
newest (payloads 50…149), the 50 oldest evicted. -/
theorem c4_bounded_cache_amended (k : OfflineManager.OfflineListKey)
    (d : JValue) (now : Int) (s s2 : OfflineManagerSt)
    (hlen : (OfflineManager.categoryList k s.offlineData).length ≤ 100)
    (h100 : (OfflineManager.categoryList k s2.offlineData).length = 100) :
    (OfflineManager.categoryList k
        (OfflineManager.storeOfflineData k d now s).offlineData).length ≤ 100 ∧
    OfflineManager.categoryList k
        (OfflineManager.storeOfflineData k d now s2).offlineData =
      (OfflineManager.categoryList k s2.offlineData ++
        [OfflineManager.withOfflineMeta d now]).drop 50 ∧
    (c4Insert 150).offlineData.locations =
      (List.range' 50 100).map
        (fun i => OfflineManager.withOfflineMeta (.jnum i) 0) := by
  refine ⟨?_, ?_, rfl⟩
  · rw [storeOfflineData_category]
    split
    · simp only [List.length_drop, List.length_append, List.length_singleton]
      omega
    · next h =>
      simp only [List.length_append, List.length_singleton] at h ⊢
      omega
  · rw [storeOfflineData_category, if_pos]
    simp [List.length_append, h100]

set_option maxRecDepth 40000 in
theorem c4_bounded_cache_amended_witness :
    ((OfflineManager.categoryList .locations
        (OfflineManager.initialState true 0).offlineData).length ≤ 100) ∧
    ((OfflineManager.categoryList .locations
        (c4Insert 100).offlineData).length = 100) ∧
    ((OfflineManager.categoryList .locations
        (OfflineManager.storeOfflineData .locations .jnull 3
          (OfflineManager.initialState true 0)).offlineData).length ≤ 100 ∧
     OfflineManager.categoryList .locations
        (OfflineManager.storeOfflineData .locations .jnull 3
          (c4Insert 100)).offlineData =
       (OfflineManager.categoryList .locations (c4Insert 100).offlineData ++
         [OfflineManager.withOfflineMeta .jnull 3]).drop 50 ∧
     (c4Insert 150).offlineData.locations =
       (List.range' 50 100).map
         (fun i => OfflineManager.withOfflineMeta (.jnum i) 0)) :=
  ⟨by decide, rfl,
   c4_bounded_cache_amended .locations .jnull 3
     (OfflineManager.initialState true 0) (c4Insert 100) (by decide) rfl⟩

/-- Claim C5: within a single drain pass, queued actions are dispatched in
FIFO enqueue order regardless of kind — against an always-succeeding remote
store client, the attempted-dispatch sequence is exactly the queue in order
(and the queue is empty afterwards). -/
theorem c5_fifo_dispatch_order (now : Int) (s : OfflineManagerSt)
    (hON : s.isOnline = true) (hP : s.syncInProgress = false) :
    (OfflineManager.syncWhenOnline (fun _ => true) [] now s).2 = s.syncQueue ∧
    (OfflineManager.syncWhenOnline (fun _ => true) [] now s).1.syncQueue = [] := by
  obtain ⟨h1, h2, _⟩ := OfflineManager.syncWhenOnline_true now s hON hP
  exact ⟨h1, h2⟩

theorem c5_fifo_dispatch_order_witness :
    c5St.isOnline = true ∧ c5St.syncInProgress = false ∧
    ((OfflineManager.syncWhenOnline (fun _ => true) [] 9 c5St).2 =
        [c5ActionA, c5ActionB, c5ActionC] ∧
     (OfflineManager.syncWhenOnline (fun _ => true) [] 9 c5St).1.syncQueue = []) :=
  ⟨rfl, rfl, c5_fifo_dispatch_order 9 c5St rfl rfl⟩

/-- Claim C9: with the manager offline and no drain in flight, the
offline-to-online transition handler marks the manager online and triggers a
drain; against an always-succeeding remote store client the queue is empty
afterwards and `getSyncStatus` reports zero queued actions. -/
theorem c9_online_transition_drain (now : Int) (s : OfflineManagerSt)
    (_hOff : s.isOnline = false) (hP : s.syncInProgress = false) :
    (OfflineManager.handleOnlineEvent (fun _ => true) now s).syncQueue = [] ∧
    (OfflineManager.getSyncStatus
        (OfflineManager.handleOnlineEvent (fun _ => true) now s)).queuedActions = 0 ∧
    (OfflineManager.handleOnlineEvent (fun _ => true) now s).isOnline = true := by
  obtain ⟨-, h2, h3⟩ :=
    OfflineManager.syncWhenOnline_true now { s with isOnline := true } rfl hP
  refine ⟨h2, ?_, h3⟩
  simp [OfflineManager.getSyncStatus, OfflineManager.handleOnlineEvent, h2]

theorem c9_online_transition_drain_witness :
    c9St.isOnline = false ∧ c9St.syncInProgress = false ∧
    ((OfflineManager.handleOnlineEvent (fun _ => true) 9 c9St).syncQueue = [] ∧
     (OfflineManager.getSyncStatus
        (OfflineManager.handleOnlineEvent (fun _ => true) 9 c9St)).queuedActions = 0 ∧
     (OfflineManager.handleOnlineEvent (fun _ => true) 9 c9St).isOnline = true) :=
  ⟨rfl, rfl, c9_online_transition_drain 9 c9St rfl rfl⟩

/-- Claim C2: at most one drain is in flight — a `syncWhenOnline` call in the
mid-drain state (`syncInProgress = true`) returns immediately with no state
change and no dispatch; an actual drain attempts exactly the snapshot of the
queue taken at drain start, so with distinct queued ids each queued action is
dispatched at most once per drain; and actions enqueued during the drain are
not dispatched by it but remain queued for the next drain. -/
theorem c2_single_flight_snapshot (dispatch : QueuedAction → Bool)
    (mid : List QueuedAction) (now : Int) (s : OfflineManagerSt)
    (hON : s.isOnline = true) (hP : s.syncInProgress = false)
    (hNE : s.syncQueue ≠ [])
    (hND : (s.syncQueue.map QueuedAction.id).Nodup)
    (hMid : ∀ m ∈ mid, m.id ∉ s.syncQueue.map QueuedAction.id) :
    OfflineManager.syncWhenOnline dispatch mid now
        { s with syncInProgress := true } =
      ({ s with syncInProgress := true }, []) ∧
    (OfflineManager.syncWhenOnline dispatch mid now s).2 = s.syncQueue ∧
    (∀ a : QueuedAction,
      (OfflineManager.syncWhenOnline dispatch mid now s).2.countP
        (fun b => b.id == a.id) ≤ 1) ∧
    (∀ m ∈ mid, m ∉ (OfflineManager.syncWhenOnline dispatch mid now s).2 ∧
      m ∈ (OfflineManager.syncWhenOnline dispatch mid now s).1.syncQueue) := by
  have hrun := OfflineManager.syncWhenOnline_run dispatch mid now s hON hP hNE
  refine ⟨?_, ?_, ?_, ?_⟩
  · unfold OfflineManager.syncWhenOnline
    simp
  · rw [hrun]
  · intro a
    rw [hrun]
    have hcount : s.syncQueue.countP (fun b => b.id == a.id) =
        (s.syncQueue.map QueuedAction.id).count a.id := by
      rw [List.count, List.countP_map]
      rfl
    dsimp only
    rw [hcount]
    exact List.nodup_iff_count_le_one.mp hND a.id
  · intro m hm
    have hnotid : m.id ∉ (OfflineManager.processSnapshot dispatch s.syncQueue).2 :=
      fun h => hMid m hm
        (OfflineManager.processSnapshot_snd_subset dispatch s.syncQueue m.id h)
    constructor
    · rw [hrun]
      intro hmem
      exact hMid m hm (List.mem_map_of_mem QueuedAction.id hmem)
    · rw [hrun]
      dsimp only
      rw [OfflineManager.saveOfflineData_syncQueue]
      apply List.mem_filter.mpr
      refine ⟨List.mem_append_right _ hm, ?_⟩
      simp [hnotid]

theorem c2_single_flight_snapshot_witness :
    c2St.isOnline = true ∧ c2St.syncInProgress = false ∧
    c2St.syncQueue ≠ [] ∧
    (c2St.syncQueue.map QueuedAction.id).Nodup ∧
    (∀ m ∈ [c2ActionMid], m.id ∉ c2St.syncQueue.map QueuedAction.id) ∧
    (OfflineManager.syncWhenOnline (fun _ => true) [c2ActionMid] 7
        { c2St with syncInProgress := true } =
      ({ c2St with syncInProgress := true }, []) ∧
    (OfflineManager.syncWhenOnline (fun _ => true) [c2ActionMid] 7 c2St).2 =
      c2St.syncQueue ∧
    (∀ a : QueuedAction,
      (OfflineManager.syncWhenOnline (fun _ => true) [c2ActionMid] 7 c2St).2.countP
        (fun b => b.id == a.id) ≤ 1) ∧
    (∀ m ∈ [c2ActionMid],
      m ∉ (OfflineManager.syncWhenOnline (fun _ => true) [c2ActionMid] 7 c2St).2 ∧
      m ∈ (OfflineManager.syncWhenOnline (fun _ => true) [c2ActionMid] 7
            c2St).1.syncQueue)) :=
  ⟨rfl, rfl, List.cons_ne_nil _ _, by decide, by decide,
   c2_single_flight_snapshot (fun _ => true) [c2ActionMid] 7 c2St rfl rfl
     (List.cons_ne_nil _ _) (by decide) (by decide)⟩

/-- Claim C6 counterexample: `stop()` on a running service holding all
resources, when clearing the location watch throws, releases nothing — the
single `try` block skips the heartbeat and wake-lock release steps and the
final `isRunning = false` assignment, leaving the service still marked
running (the claim's independent guarding and stopped final state both
fail). -/
theorem c6_stop_guard_counterexample :
    BackgroundService.stop c6WatchFailEnv c6RunningSt = c6RunningSt ∧
    (BackgroundService.stop c6WatchFailEnv c6RunningSt).isRunning = true ∧
    (BackgroundService.stop c6WatchFailEnv c6RunningSt).heartbeatInterval =
      some 8 ∧
    (BackgroundService.stop c6WatchFailEnv c6RunningSt).wakeLock = some () :=
  ⟨rfl, rfl, rfl, rfl⟩

theorem BackgroundService.acquireWakeLock_isRunning
    (env : BackgroundService.StartEnv) (s : BgSt) :
    (BackgroundService.acquireWakeLock env s).isRunning = s.isRunning := by
  unfold BackgroundService.acquireWakeLock
  split <;> rfl

theorem BackgroundService.registerServiceWorker_isRunning
    (env : BackgroundService.StartEnv) (s : BgSt) :
    (BackgroundService.registerServiceWorker env s).isRunning = s.isRunning := by
  unfold BackgroundService.registerServiceWorker
  split <;> rfl

/-- Claim C6 amended: `stop()`, called while running, cancels the location
watch and heartbeat and releases the wake lock in sequence inside a single
guard and never throws to the caller; when every release step succeeds all
resources are released and the service ends stopped, but the steps are not
independently guarded — a throw while clearing the location watch abandons
the remaining release steps and leaves the service still marked running with
its other resources still held. -/
theorem c6_stop_behavior_amended (env1 env2 : BackgroundService.StopEnv)
    (s : BgSt) (hRun : s.isRunning = true)
    (h1 : env1.clearWatchFails = false) (h2 : env1.clearIntervalFails = false)
    (h3 : env1.releaseWakeLockFails = false) (h4 : env1.postMessageFails = false)
    (h5 : env2.clearWatchFails = true) (h6 : s.locationWatchId.isSome = true) :
    ((BackgroundService.stop env1 s).isRunning = false ∧
     (BackgroundService.stop env1 s).locationWatchId = none ∧
     (BackgroundService.stop env1 s).heartbeatInterval = none ∧
     (BackgroundService.stop env1 s).wakeLock = none) ∧
    BackgroundService.stop env2 s = s := by
  obtain ⟨e11, e12, e13, e14⟩ := env1
  obtain ⟨e21, e22, e23, e24⟩ := env2
  obtain ⟨bRun, oW, oH, oL, oSW⟩ := s
  simp only at hRun h1 h2 h3 h4 h5 h6
  subst hRun h1 h2 h3 h4 h5
  cases oW with
  | none => simp at h6
  | some w =>
    cases oH <;> cases oL <;> cases oSW <;>
      simp [BackgroundService.stop, BackgroundService.stopAttempt,
            BackgroundService.stopAttempt.stopAfterWatch,
            BackgroundService.stopAttempt.stopAfterHeartbeat,
            BackgroundService.stopAttempt.stopAfterWakeLock]

theorem c6_stop_behavior_amended_witness :
    c6RunningSt.isRunning = true ∧
    c6CleanEnv.clearWatchFails = false ∧ c6CleanEnv.clearIntervalFails = false ∧
    c6CleanEnv.releaseWakeLockFails = false ∧ c6CleanEnv.postMessageFails = false ∧
    c6WatchFailEnv.clearWatchFails = true ∧
    c6RunningSt.locationWatchId.isSome = true ∧
    (((BackgroundService.stop c6CleanEnv c6RunningSt).isRunning = false ∧
      (BackgroundService.stop c6CleanEnv c6RunningSt).locationWatchId = none ∧
      (BackgroundService.stop c6CleanEnv c6RunningSt).heartbeatInterval = none ∧
      (BackgroundService.stop c6CleanEnv c6RunningSt).wakeLock = none) ∧
     BackgroundService.stop c6WatchFailEnv c6RunningSt = c6RunningSt) :=
  ⟨rfl, rfl, rfl, rfl, rfl, rfl, rfl,
   c6_stop_behavior_amended c6CleanEnv c6WatchFailEnv c6RunningSt
     rfl rfl rfl rfl rfl rfl rfl⟩

/-- Claim C8: `start()` returns `true` and marks the service running on
success; absence of the wake-lock capability is not fatal (start still
succeeds in degraded mode); an unrecoverable setup error (geolocation
unsupported while a tracking `childCode` is given, the one throwing step)
makes it return `false` — caught, never thrown to the caller — with the
service still in the stopped state, and in general every `false` return
leaves the service not running. -/
theorem c8_start_error_handling (env1 env2 : BackgroundService.StartEnv)
    (c : Option String) (code : String) (s : BgSt)
    (hNR : s.isRunning = false)
    (hGeo1 : env1.geolocationSupported = true)
    (_hWL : env1.wakeLockSupported = false)
    (hGeo2 : env2.geolocationSupported = false) :
    ((BackgroundService.start env1 c s).1 = true ∧
     (BackgroundService.start env1 c s).2.isRunning = true) ∧
    ((BackgroundService.start env2 (some code) s).1 = false ∧
     (BackgroundService.start env2 (some code) s).2.isRunning = false) ∧
    (∀ env : BackgroundService.StartEnv, ∀ cc : Option String,
      (BackgroundService.start env cc s).1 = false →
      (BackgroundService.start env cc s).2.isRunning = false) := by
  refine ⟨?_, ?_, ?_⟩
  · unfold BackgroundService.start
    rw [hNR]
    cases c with
    | none => simp
    | some code2 => simp [hGeo1]
  · unfold BackgroundService.start
    rw [hNR]
    simp [hGeo2, BackgroundService.registerServiceWorker_isRunning,
          BackgroundService.acquireWakeLock_isRunning, hNR]
  · intro env cc h
    unfold BackgroundService.start at h ⊢
    rw [hNR] at h ⊢
    cases cc with
    | none => simp at h
    | some cd =>
      by_cases hg : env.geolocationSupported
      · simp [hg] at h
      · simp [hg, BackgroundService.registerServiceWorker_isRunning,
              BackgroundService.acquireWakeLock_isRunning, hNR]

theorem c8_start_error_handling_witness :
    c8StoppedSt.isRunning = false ∧
    c8DegradedEnv.geolocationSupported = true ∧
    c8DegradedEnv.wakeLockSupported = false ∧
    c8NoGeoEnv.geolocationSupported = false ∧
    (((BackgroundService.start c8DegradedEnv (some "AB12") c8StoppedSt).1 = true ∧
      (BackgroundService.start c8DegradedEnv (some "AB12")
          c8StoppedSt).2.isRunning = true) ∧
     ((BackgroundService.start c8NoGeoEnv (some "AB12") c8StoppedSt).1 = false ∧
      (BackgroundService.start c8NoGeoEnv (some "AB12")
          c8StoppedSt).2.isRunning = false) ∧
     (∀ env : BackgroundService.StartEnv, ∀ cc : Option String,
       (BackgroundService.start env cc c8StoppedSt).1 = false →
       (BackgroundService.start env cc c8StoppedSt).2.isRunning = false)) :=
  ⟨rfl, rfl, rfl, rfl,
   c8_start_error_handling c8DegradedEnv c8NoGeoEnv (some "AB12") "AB12"
     c8StoppedSt rfl rfl rfl rfl⟩

/-- Restart round trip: loading the two blobs `saveOfflineData` wrote
restores the exact in-memory state. -/
theorem load_saved_roundtrip (now2 : Int) (d : OfflineData)
    (q : List QueuedAction) :
    OfflineManager.loadOfflineData now2
        (.val (OfflineManager.serializeOfflineData d))
        (.val (OfflineManager.serializeQueue q)) = (d, q) := by
  have h1 : OfflineManager.loadOfflineData now2
      (.val (OfflineManager.serializeOfflineData d))
      (.val (OfflineManager.serializeQueue q)) =
      (OfflineManager.dataOf now2 (.val (OfflineManager.serializeOfflineData d)),
       OfflineManager.queueOf (.val (OfflineManager.serializeQueue q))) := rfl
  rw [h1]
  unfold OfflineManager.dataOf OfflineManager.queueOf OfflineManager.serializeQueue
  simp [OfflineManager.parseOfflineData_serialize]
  rw [← List.filterMap_map]
  exact OfflineManager.loadQueue_roundtrip q

/-- Claim C7: for every action kind and payload, `queueAction` appends a
`QueuedAction` with `retryCount = 0` and persists the queue to the durable
store synchronously before returning (the post-return online drain is
fire-and-forget and not part of the call), so a simulated process restart —
`loadOfflineData` on the persisted blobs — reproduces the whole queue,
including the new action with `retryCount` unchanged at 0. -/
theorem c7_enqueue_durability (typ : String) (d : JValue) (now now2 : Int)
    (rand : String) (s : OfflineManagerSt) :
    ∃ a : QueuedAction,
      a.retryCount = 0 ∧ a.type = typ ∧ a.data = d ∧ a.timestamp = now ∧
      (OfflineManager.queueAction typ d now rand s).2 = a.id ∧
      (OfflineManager.queueAction typ d now rand s).1.syncQueue =
        s.syncQueue ++ [a] ∧
      (OfflineManager.queueAction typ d now rand s).1.store.queueBlob =
        .val (OfflineManager.serializeQueue (s.syncQueue ++ [a])) ∧
      OfflineManager.loadOfflineData now2
          (OfflineManager.queueAction typ d now rand s).1.store.offlineBlob
          (OfflineManager.queueAction typ d now rand s).1.store.queueBlob =
        (s.offlineData, s.syncQueue ++ [a]) := by
  refine ⟨{ id := typ ++ "_" ++ toString now ++ "_" ++ rand, type := typ,
            data := d, timestamp := now, retryCount := 0 },
          rfl, rfl, rfl, rfl, rfl, rfl, rfl, ?_⟩
  exact load_saved_roundtrip now2 s.offlineData _

/-- Claim C10: loading persisted state is total — its `catch` turns any
parse throw into a reset — and validating: an unparsable offline-data blob
(either blob unparsable, in fact) resets the whole state to empty defaults; a
parsable but ill-shaped offline-data blob resets the offline data to defaults
while the queue blob, when an array, is loaded item by item through the
validation filter; an item is loaded exactly when it is truthy with a string
`id`, string `type`, numeric `timestamp` and numeric `retryCount`, and items
failing that validation are silently dropped. -/
theorem c10_load_validation (now : Int) (j : JValue) (xs : List JValue)
    (hBad : OfflineManager.parseOfflineData j = none) :
    (∀ qb : Blob, OfflineManager.loadOfflineData now .malformed qb =
      (OfflineManager.defaultOfflineData now, [])) ∧
    (∀ ob : Blob, OfflineManager.loadOfflineData now ob .malformed =
      (OfflineManager.defaultOfflineData now, [])) ∧
    OfflineManager.loadOfflineData now (.val j) (.val (.jarr xs)) =
      (OfflineManager.defaultOfflineData now,
       xs.filterMap OfflineManager.parseQueueItem) ∧
    (∀ x : JValue, OfflineManager.validQueueItem x = true →
      (OfflineManager.parseQueueItem x).isSome = true) ∧
    (∀ x : JValue, ∀ a : QueuedAction,
      OfflineManager.parseQueueItem x = some a →
      OfflineManager.validQueueItem x = true) := by
  refine ⟨?_, ?_, ?_, OfflineManager.valid_item_parses,
          OfflineManager.parsed_item_valid⟩
  · intro qb
    cases qb <;> rfl
  · intro ob
    cases ob <;> rfl
  · have h1 : OfflineManager.loadOfflineData now (.val j) (.val (.jarr xs)) =
        (OfflineManager.dataOf now (.val j),
         OfflineManager.queueOf (.val (.jarr xs))) := rfl
    rw [h1]
    unfold OfflineManager.dataOf OfflineManager.queueOf
    simp [hBad]

theorem c10_load_validation_witness :
    OfflineManager.parseOfflineData (.jnum 0) = none ∧
    ((∀ qb : Blob, OfflineManager.loadOfflineData 4 .malformed qb =
       (OfflineManager.defaultOfflineData 4, [])) ∧
     (∀ ob : Blob, OfflineManager.loadOfflineData 4 ob .malformed =
       (OfflineManager.defaultOfflineData 4, [])) ∧
     OfflineManager.loadOfflineData 4 (.val (.jnum 0)) (.val (.jarr c10Items)) =
       (OfflineManager.defaultOfflineData 4,
        c10Items.filterMap OfflineManager.parseQueueItem) ∧
     (∀ x : JValue, OfflineManager.validQueueItem x = true →
       (OfflineManager.parseQueueItem x).isSome = true) ∧
     (∀ x : JValue, ∀ a : QueuedAction,
       OfflineManager.parseQueueItem x = some a →
       OfflineManager.validQueueItem x = true)) :=
  ⟨rfl, c10_load_validation 4 (.jnum 0) c10Items rfl⟩
